import Mathlib

/-!
Shallow embedding of the analysis pipeline and alert policy of the
AI-Mental-Health-Analyser repository (src/analysis/services.py,
src/alerts/services.py, and the enum/model declarations they use), together
with theorems settling the frozen claims about it.

Conventions of the embedding:
* Python `int` is `ℤ`; `Decimal` values quantized to one decimal place are
  carried as integers counting tenths (`Decimal("9.0")` is `90`).
* Python `datetime` instants are `ℤ` seconds; `timezone.now()` becomes an
  explicit `now` parameter of the environment.
* Python values that may inhabit a JSON document are the inductive `JVal`.
* Fallible external collaborators (the LLM HTTP provider, the `json_repair`
  library, the Django email backend) are explicit parameters: an
  `Except`/sum value stands for "returned normally" vs "raised".
* A Python function that can raise an uncaught exception is embedded with
  result type `Except PyErr _`; a total one returns its value directly.
-/

/-- `analysis.models.RiskLevel` (Django TextChoices). -/
inductive RiskLevel where
  | LOW | MEDIUM | HIGH | CRITICAL
deriving DecidableEq, Repr

/-- `analysis.models.AnalysisStatus`. -/
inductive AnalysisStatus where
  | OK | REPAIRED | FAILED
deriving DecidableEq, Repr

/-- `alerts.models.AlertStatus`. -/
inductive AlertStatus where
  | SENT | FAILED | SKIPPED_RATE_LIMIT | SKIPPED_NO_CONSENT | SKIPPED_NO_CONTACTS
deriving DecidableEq, Repr

/-- `alerts.models.ContactChannel`. -/
inductive ContactChannel where
  | EMAIL | SMS
deriving DecidableEq, Repr

/-- The string stored for a `RiskLevel` (the TextChoices value, as it appears
in f-string interpolation of `analysis.risk_level`). -/
def RiskLevel.str : RiskLevel → String
  | .LOW => "LOW"
  | .MEDIUM => "MEDIUM"
  | .HIGH => "HIGH"
  | .CRITICAL => "CRITICAL"

/-- The whitespace class of Python `str.strip()` / regex `\s` (ASCII part). -/
def pyWs (c : Char) : Bool :=
  c = ' ' || c = '\t' || c = '\n' || c = '\r' || c = '\x0b' || c = '\x0c'

/-- `l` with its `pyWs` prefix and suffix removed: Python `str.strip()` on a
list of characters. -/
def stripChars (l : List Char) : List Char :=
  List.rdropWhile pyWs (l.dropWhile pyWs)

/-- Python `str.strip()`. -/
def pyStrip (s : String) : String := ⟨stripChars s.data⟩

/-- `analysis.services.compute_overall`, in tenths: the Decimal mean
`(s+a+d)/3` quantized to one decimal place with `ROUND_HALF_EVEN` (the
default Decimal rounding).  `n.ediv 3` with the nonnegative remainder
`n.emod 3` gives the floor and fractional part of `10*(s+a+d)/3`; the
half-even tie branch is kept for fidelity although a denominator of 3 never
produces a tie. -/
def compute_overall (stress anxiety depression : ℤ) : ℤ :=
  let n := 10 * (stress + anxiety + depression)
  let q := n / 3
  let r := n % 3
  if 2 * r < 3 then q
  else if 3 < 2 * r then q + 1
  else if q % 2 = 0 then q else q + 1

/-- `analysis.services.risk_from_scores`; `overall` is in tenths, so the
Decimal thresholds 9.0 / 7.0 / 4.0 are 90 / 70 / 40. -/
def risk_from_scores (stress anxiety depression : ℤ) (overall : ℤ) : RiskLevel :=
  if 90 ≤ overall ∨ 9 ≤ depression then .CRITICAL
  else if 70 ≤ overall ∨ 8 ≤ stress ∨ 8 ≤ anxiety ∨ 8 ≤ depression then .HIGH
  else if 40 ≤ overall then .MEDIUM
  else .LOW

/-- The tier cascade as §4.3 of the spec words it, for the refinement
comparison with `risk_from_scores`: "Tier decision, evaluated in this exact
precedence (first match wins): 1. CRITICAL if overall ≥ 9.0 OR
depression ≥ 9.  2. HIGH if overall ≥ 7.0 OR stress ≥ 8 OR anxiety ≥ 8 OR
depression ≥ 8.  3. MEDIUM if overall ≥ 4.0.  4. LOW otherwise." -/
def riskTierSpec (stress anxiety depression : ℤ) (overall : ℤ) : RiskLevel :=
  if 90 ≤ overall ∨ 9 ≤ depression then .CRITICAL
  else if 70 ≤ overall ∨ 8 ≤ stress ∨ 8 ≤ anxiety ∨ 8 ≤ depression then .HIGH
  else if 40 ≤ overall then .MEDIUM
  else .LOW

/-- A Python value that can live in a decoded JSON document (the possible
results of `json.loads` and the values of the dictionaries handed to
`validate_llm_json`).  Python's `bool` is a subtype of `int`; it is kept as a
separate constructor because `int(True) = 1` while `isinstance(True, str)` is
false.  JSON numbers are carried exactly as rationals (Python holds integers
exactly and decimal literals as the nearest double; the difference is
irrelevant to integer coercion at the scales involved here). -/
inductive JVal where
  | jnull
  | jbool (b : Bool)
  | jnum (q : ℚ)
  | jstr (s : String)
  | jarr (xs : List JVal)
  | jobj (fields : List (String × JVal))

/-- `dict.get(k)` on the association list representing a Python dict built by
`json.loads` (keys are unique, so the first match is the binding). -/
def dget (obj : List (String × JVal)) (k : String) : Option JVal :=
  (obj.find? (fun p => p.1 = k)).map (·.2)

/-- Decimal digits to the natural number they denote, `none` when the list is
empty or contains a non-digit. -/
def decDigits (l : List Char) : Option ℕ :=
  if l ≠ [] ∧ l.all (·.isDigit) then
    some (l.foldl (fun acc c => 10 * acc + (c.toNat - 48)) 0)
  else none

/-- Python `int(s)` on a `str`: surrounding whitespace is stripped, an
optional sign is allowed, and the rest must be digits; otherwise `ValueError`
(`none`).  (Underscore digit grouping is not modelled.) -/
def pyStrToInt (s : String) : Option ℤ :=
  match stripChars s.data with
  | '+' :: ds => (decDigits ds).map (fun n => (n : ℤ))
  | '-' :: ds => (decDigits ds).map (fun n => -(n : ℤ))
  | ds => (decDigits ds).map (fun n => (n : ℤ))

/-- Python `int(v)`: `none` models a raised `TypeError`/`ValueError`.
`int` of a float truncates toward zero, hence `Int.div` of the numerator by
the denominator. -/
def pyToInt : JVal → Option ℤ
  | .jbool b => some (if b then 1 else 0)
  | .jnum q => some (Int.tdiv q.num (q.den : ℤ))
  | .jstr s => pyStrToInt s
  | .jnull => none
  | .jarr _ => none
  | .jobj _ => none

/-- `analysis.services._clamp_int`: coerce with `int(.)`, substitute `lo` if
the coercion raises, then clamp into `[lo, hi]`.  Call sites use
`lo = 0, hi = 10`. -/
def _clamp_int (v : JVal) (lo hi : ℤ) : ℤ :=
  let n := (pyToInt v).getD lo
  max lo (min hi n)

mutual

/-- Python `str(v)`.  The rendering of nested containers and non-integer
numbers is a simplified deterministic model of CPython's `str`; no theorem
below depends on its exact text — only `str` of a `str` being the identity
matters. -/
def pyStr : JVal → String
  | .jnull => "None"
  | .jbool b => if b then "True" else "False"
  | .jnum q => if q.den = 1 then toString q.num else toString q
  | .jstr s => s
  | .jarr xs => "[" ++ pyReprList xs ++ "]"
  | .jobj fs => "\x7b" ++ pyReprFields fs ++ "\x7d"

/-- Python `repr(v)` (used by `str` on container elements); differs from
`pyStr` by quoting strings. -/
def pyRepr : JVal → String
  | .jnull => "None"
  | .jbool b => if b then "True" else "False"
  | .jnum q => if q.den = 1 then toString q.num else toString q
  | .jstr s => "\x27" ++ s ++ "\x27"
  | .jarr xs => "[" ++ pyReprList xs ++ "]"
  | .jobj fs => "\x7b" ++ pyReprFields fs ++ "\x7d"

/-- Comma-separated `repr`s of list elements. -/
def pyReprList : List JVal → String
  | [] => ""
  | [x] => pyRepr x
  | x :: y :: xs => pyRepr x ++ ", " ++ pyReprList (y :: xs)

/-- Comma-separated `repr`s of dict entries. -/
def pyReprFields : List (String × JVal) → String
  | [] => ""
  | [(k, v)] => "\x27" ++ k ++ "\x27: " ++ pyRepr v
  | (k, v) :: y :: xs => "\x27" ++ k ++ "\x27: " ++ pyRepr v ++ ", " ++ pyReprFields (y :: xs)

end

/-- The normalized record produced by `validate_llm_json` (the `normalized`
dict of the source, with its fixed six keys as fields). -/
structure NormalizedFields where
  stress_score : ℤ
  anxiety_score : ℤ
  depression_score : ℤ
  rationale_short : String
  ai_message : String
  recommendations : List String
deriving DecidableEq, Repr

/-- The fixed `required` key list of `validate_llm_json`. -/
def requiredKeys : List String :=
  ["stress_score", "anxiety_score", "depression_score",
   "rationale_short", "ai_message", "recommendations"]

/-- `analysis.services.validate_llm_json`: returns the normalized record and
the accumulated error strings, in the order the source appends them
(missing-key errors in `required` order, then the `rationale_short`,
`ai_message` and `recommendations` type/arity errors). -/
def validate_llm_json (obj : List (String × JVal)) : NormalizedFields × List String :=
  let missing := requiredKeys.filterMap fun k =>
    if (dget obj k).isNone then some ("Missing key: " ++ k) else none
  let stress := _clamp_int ((dget obj "stress_score").getD (.jnum 0)) 0 10
  let anxiety := _clamp_int ((dget obj "anxiety_score").getD (.jnum 0)) 0 10
  let depression := _clamp_int ((dget obj "depression_score").getD (.jnum 0)) 0 10
  let rationaleV := (dget obj "rationale_short").getD (.jstr "")
  let rationaleErrs : List String := match rationaleV with
    | .jstr _ => []
    | _ => ["rationale_short must be string"]
  let rationale := match rationaleV with
    | .jstr s => s
    | v => pyStr v
  let aiV := (dget obj "ai_message").getD (.jstr "")
  let aiErrs : List String := match aiV with
    | .jstr _ => []
    | _ => ["ai_message must be string"]
  let ai := match aiV with
    | .jstr s => s
    | v => pyStr v
  let recsV := (dget obj "recommendations").getD (.jarr [])
  let recsPair : List String × List String := match recsV with
    | .jarr xs =>
        let recs := (xs.map pyStr).take 6
        (recs, if recs.length < 3 then ["recommendations must have at least 3 items"] else [])
    | _ => ([], ["recommendations must be an array"])
  let normalized : NormalizedFields :=
    { stress_score := stress
      anxiety_score := anxiety
      depression_score := depression
      rationale_short := pyStrip rationale
      ai_message := pyStrip ai
      recommendations := recsPair.1 }
  (normalized, missing ++ rationaleErrs ++ aiErrs ++ recsPair.2)

/-- The normalized record re-encoded as the Python dict it is in the source
(`validate_llm_json` builds exactly this dict), for feeding the normalizer
its own output. -/
def normalizedToObj (n : NormalizedFields) : List (String × JVal) :=
  [("stress_score", .jnum (n.stress_score : ℚ)),
   ("anxiety_score", .jnum (n.anxiety_score : ℚ)),
   ("depression_score", .jnum (n.depression_score : ℚ)),
   ("rationale_short", .jstr n.rationale_short),
   ("ai_message", .jstr n.ai_message),
   ("recommendations", .jarr (n.recommendations.map .jstr))]

/-! ### A model of `json.loads` success and result

`json.loads` is the Python standard library's strict JSON reader.  The
recursive-descent reader below follows RFC 8259 as CPython implements it:
the four JSON whitespace characters, `true`/`false`/`null`, strings with the
standard escapes, numbers without leading zeros, arrays and objects (a
duplicated key keeps its first position with its last value).  `none` models
a raised `json.JSONDecodeError`.  (Unicode surrogate pairs in `\u` escapes
are approximated by the replacement of invalid scalars.) -/

/-- The JSON/`json.loads` whitespace class. -/
def jsonWsChar (c : Char) : Bool :=
  c = ' ' || c = '\t' || c = '\n' || c = '\r'

/-- Skip JSON whitespace. -/
def skipJsonWs (l : List Char) : List Char := l.dropWhile jsonWsChar

/-- Value of one hexadecimal digit. -/
def hexVal (c : Char) : Option ℕ :=
  if c.isDigit then some (c.toNat - 48)
  else if 'a' ≤ c ∧ c ≤ 'f' then some (c.toNat - 87)
  else if 'A' ≤ c ∧ c ≤ 'F' then some (c.toNat - 55)
  else none

/-- The body of a JSON string after the opening quote: the decoded
characters and the input after the closing quote. -/
def parseStrChars : List Char → Option (List Char × List Char)
  | [] => none
  | '"' :: rest => some ([], rest)
  | '\\' :: rest =>
    match rest with
    | '"' :: r => (parseStrChars r).map (fun p => ('"' :: p.1, p.2))
    | '\\' :: r => (parseStrChars r).map (fun p => ('\\' :: p.1, p.2))
    | '/' :: r => (parseStrChars r).map (fun p => ('/' :: p.1, p.2))
    | 'b' :: r => (parseStrChars r).map (fun p => ('\x08' :: p.1, p.2))
    | 'f' :: r => (parseStrChars r).map (fun p => ('\x0c' :: p.1, p.2))
    | 'n' :: r => (parseStrChars r).map (fun p => ('\n' :: p.1, p.2))
    | 'r' :: r => (parseStrChars r).map (fun p => ('\x0d' :: p.1, p.2))
    | 't' :: r => (parseStrChars r).map (fun p => ('\t' :: p.1, p.2))
    | 'u' :: h1 :: h2 :: h3 :: h4 :: r =>
      match hexVal h1, hexVal h2, hexVal h3, hexVal h4 with
      | some a, some b, some c, some d =>
        (parseStrChars r).map (fun p => (Char.ofNat (((a * 16 + b) * 16 + c) * 16 + d) :: p.1, p.2))
      | _, _, _, _ => none
    | _ => none
  | c :: rest =>
    if c.toNat < 32 then none
    else (parseStrChars rest).map (fun p => (c :: p.1, p.2))

/-- Leading run of decimal digits and the rest. -/
def spanDigits (l : List Char) : List Char × List Char :=
  (l.takeWhile (·.isDigit), l.dropWhile (·.isDigit))

/-- The natural number denoted by a digit run. -/
def digitsVal (l : List Char) : ℕ :=
  l.foldl (fun acc c => 10 * acc + (c.toNat - 48)) 0

/-- A JSON number (`-? int frac? exp?`, no leading zeros) as an exact
rational, with the rest of the input. -/
def parseNumber (l : List Char) : Option (ℚ × List Char) :=
  let signed := match l with
    | '-' :: r => (true, r)
    | _ => (false, l)
  let ipSpan := spanDigits signed.2
  if ipSpan.1 = [] then none
  else if 1 < ipSpan.1.length ∧ ipSpan.1.head? = some '0' then none
  else
    let fracStep : Option (ℚ × List Char) := match ipSpan.2 with
      | '.' :: r =>
        let fd := spanDigits r
        if fd.1 = [] then none
        else some ((digitsVal fd.1 : ℚ) / (10 : ℚ) ^ fd.1.length, fd.2)
      | _ => some (0, ipSpan.2)
    match fracStep with
    | none => none
    | some (fracV, l3) =>
      let expStep : Option (ℤ × List Char) := match l3 with
        | 'e' :: r | 'E' :: r =>
          let esigned : ℤ × List Char := match r with
            | '+' :: rr => (1, rr)
            | '-' :: rr => (-1, rr)
            | _ => (1, r)
          let ed := spanDigits esigned.2
          if ed.1 = [] then none else some (esigned.1 * (digitsVal ed.1 : ℤ), ed.2)
        | _ => some (0, l3)
      match expStep with
      | none => none
      | some (e, l4) =>
        let base : ℚ := (digitsVal ipSpan.1 : ℚ) + fracV
        let withSign := if signed.1 then -base else base
        let scaled :=
          if 0 ≤ e then withSign * (10 : ℚ) ^ e.toNat
          else withSign / (10 : ℚ) ^ (-e).toNat
        some (scaled, l4)

/-- Insert a key into a decoded object the way CPython's dict does for a
duplicated JSON key: first position, last value. -/
def objInsert (fields : List (String × JVal)) (k : String) (v : JVal) :
    List (String × JVal) :=
  if fields.any (fun p => p.1 = k) then
    fields.map (fun p => if p.1 = k then (k, v) else p)
  else fields ++ [(k, v)]

mutual

/-- One JSON value starting at the head of the input (no leading
whitespace), with the rest of the input.  `fuel` only bounds recursion; any
`fuel ≥ 2 *` input length suffices for every input. -/
def parseValue : ℕ → List Char → Option (JVal × List Char)
  | 0, _ => none
  | f + 1, l =>
    match l with
    | 't' :: 'r' :: 'u' :: 'e' :: r => some (.jbool true, r)
    | 'f' :: 'a' :: 'l' :: 's' :: 'e' :: r => some (.jbool false, r)
    | 'n' :: 'u' :: 'l' :: 'l' :: r => some (.jnull, r)
    | '"' :: r => (parseStrChars r).map (fun p => (.jstr ⟨p.1⟩, p.2))
    | '\x7b' :: r =>
      match skipJsonWs r with
      | '\x7d' :: t => some (.jobj [], t)
      | r2 => parseMembers f r2 []
    | '[' :: r =>
      match skipJsonWs r with
      | ']' :: t => some (.jarr [], t)
      | r2 => parseElems f r2 []
    | _ => (parseNumber l).map (fun p => (.jnum p.1, p.2))

/-- Members of an object after the opening brace (first member at the head),
accumulating decoded pairs. -/
def parseMembers : ℕ → List Char → List (String × JVal) →
    Option (JVal × List Char)
  | 0, _, _ => none
  | f + 1, l, acc =>
    match l with
    | '"' :: r =>
      match parseStrChars r with
      | none => none
      | some (cs, r1) =>
        match skipJsonWs r1 with
        | ':' :: r2 =>
          match parseValue f (skipJsonWs r2) with
          | none => none
          | some (v, r3) =>
            let acc2 := objInsert acc ⟨cs⟩ v
            match skipJsonWs r3 with
            | ',' :: r4 => parseMembers f (skipJsonWs r4) acc2
            | '\x7d' :: r4 => some (.jobj acc2, r4)
            | _ => none
        | _ => none
    | _ => none

/-- Elements of an array after the opening bracket (first element at the
head), accumulating decoded values. -/
def parseElems : ℕ → List Char → List JVal → Option (JVal × List Char)
  | 0, _, _ => none
  | f + 1, l, acc =>
    match parseValue f l with
    | none => none
    | some (v, r) =>
      match skipJsonWs r with
      | ',' :: r2 => parseElems f (skipJsonWs r2) (acc ++ [v])
      | ']' :: r2 => some (.jarr (acc ++ [v]), r2)
      | _ => none

end

/-- `json.loads(s)`: the decoded value, or `none` for a raised
`json.JSONDecodeError` (including on trailing non-whitespace). -/
def jsonParse (s : String) : Option JVal :=
  match parseValue (2 * s.data.length + 2) (skipJsonWs s.data) with
  | some (v, rest) => if skipJsonWs rest = [] then some v else none
  | none => none

/-! ### `analysis.services._extract_json_from_response` -/

/-- One pass of `re.sub(pat + r'\s*', '', l)` for a literal pattern `pat`:
left-to-right scan, on a match drop the pattern and the following whitespace
run and continue after it.  `fuel ≥` input length always suffices. -/
def reSubPatWs (pat : List Char) : ℕ → List Char → List Char
  | 0, l => l
  | _f + 1, [] => []
  | f + 1, c :: rest =>
    if pat.isPrefixOf (c :: rest) then
      reSubPatWs pat f (((c :: rest).drop pat.length).dropWhile pyWs)
    else c :: reSubPatWs pat f rest

/-- The `text` local of `_extract_json_from_response` after the two
`re.sub` fence removals and `.strip()` (source lines 67–69). -/
def cleanedText (text0 : String) : List Char :=
  let l1 := reSubPatWs "```json".data text0.data.length text0.data
  let l2 := reSubPatWs "```".data l1.length l1
  stripChars l2

/-- `text.find('\x7b')` as an index, `none` for `-1`. -/
def firstBraceIdx (l : List Char) : Option ℕ := l.findIdx? (· = '\x7b')

/-- `text.rfind('\x7d')` as an index, `none` for `-1`. -/
def lastBraceIdx (l : List Char) : Option ℕ :=
  match l.reverse.findIdx? (· = '\x7d') with
  | some i => some (l.length - 1 - i)
  | none => none

/-- The truncated-reply branch of `_extract_json_from_response` (source
lines 90–98): repair from the first `\x7b` to the end, return the repaired
text only if it parses, else fall through to the cleaned text.  `repair` is
the external `json_repair.repair_json` (an `Except.error` models a raised
exception). -/
def tryTruncated (repair : String → Except String String) (l : List Char)
    (s : ℕ) : String :=
  let sub : String := ⟨l.drop s⟩
  match repair sub with
  | .ok r => if (jsonParse r).isSome then r else ⟨l⟩
  | .error _ => ⟨l⟩

/-- `analysis.services._extract_json_from_response`, parameterized by the
external `json_repair.repair_json` function.  Note the complete-object
branch (source lines 75–87): when the brace-to-brace substring does not
parse, it returns `repair_json(extracted)` without validating the result,
and returns the *extracted substring* (not the cleaned text) when the
repair call itself raises. -/
def _extract_json_from_response (repair : String → Except String String)
    (text0 : String) : String :=
  let l := cleanedText text0
  match firstBraceIdx l, lastBraceIdx l with
  | some s, some e =>
    if s < e then
      let sub : String := ⟨(l.drop s).take (e + 1 - s)⟩
      if (jsonParse sub).isSome then sub
      else
        match repair sub with
        | .ok r => r
        | .error _ => sub
    else tryTruncated repair l s
  | some s, none => tryTruncated repair l s
  | none, _ => ⟨l⟩

/-! ### `analysis.services.analyze_text` -/

/-- The outcome of `provider.analyze(...)` as the orchestrator's `try` block
sees it: a returned raw string, or a raised exception that is a
`json.JSONDecodeError` (as `requests.Response.json()` raises inside
`OpenRouterProvider.analyze`), or any other raised exception. -/
inductive ProviderResult where
  | ok (raw : String)
  | raisesJsonDecode (msg : String)
  | raisesOther (msg : String)

/-- The external collaborators `analyze_text` interacts with: the configured
LLM provider and the `json_repair` library. -/
structure AnalyzeEnv where
  provider : String → List (String × String) → ProviderResult
  repair : String → Except String String

/-- An exception escaping the embedded Python function to its caller. -/
inductive PyErr where
  | unboundLocal (name : String)
  | nonDictTop
deriving DecidableEq, Repr

/-- `analysis.services.AnalysisPayload`. -/
structure AnalysisPayload where
  stress_score : ℤ
  anxiety_score : ℤ
  depression_score : ℤ
  risk_level : RiskLevel
  alert_recommended : Bool
  rationale_short : String
  ai_message : String
  recommendations : List String
  raw_llm_json : String
  analysis_status : AnalysisStatus
deriving DecidableEq, Repr

/-- The fixed payload returned for empty/whitespace-only input (source
lines 272–283). -/
def emptyInputPayload : AnalysisPayload :=
  { stress_score := 0
    anxiety_score := 0
    depression_score := 0
    risk_level := .LOW
    alert_recommended := false
    rationale_short := "No text provided for analysis."
    ai_message := "Please share what\x27s on your mind."
    recommendations := ["Try writing a message about how you\x27re feeling."]
    raw_llm_json := ""
    analysis_status := .FAILED }

/-- The fixed payload returned from the `except json.JSONDecodeError`
handler (source lines 303–318); `raw` is the offending text. -/
def invalidFormatPayload (raw : String) : AnalysisPayload :=
  { stress_score := 0
    anxiety_score := 0
    depression_score := 0
    risk_level := .LOW
    alert_recommended := false
    rationale_short := "Analysis failed due to invalid response format."
    ai_message := "I had trouble processing that message. Please try again."
    recommendations := ["Try rephrasing your message.",
                        "Keep it short and specific.",
                        "If urgent, contact a professional."]
    raw_llm_json := raw.take 1000
    analysis_status := .FAILED }

/-- The fixed payload returned from the `except Exception` handler (source
lines 321–336); `excText` is `str(exc)`. -/
def providerErrorPayload (excText : String) : AnalysisPayload :=
  { stress_score := 0
    anxiety_score := 0
    depression_score := 0
    risk_level := .LOW
    alert_recommended := false
    rationale_short := "Analysis failed due to provider error."
    ai_message := "I had trouble analyzing that message. Please try again."
    recommendations := ["Try rephrasing your message.",
                        "Keep it short and specific.",
                        "If urgent, contact a professional."]
    raw_llm_json := excText.take 1000
    analysis_status := .FAILED }

/-- The successful tail of `analyze_text` (source lines 338–361): normalize,
classify, set `alert_recommended` and the `OK`/`REPAIRED` status. -/
def successPayload (raw : String) (fields : List (String × JVal)) :
    AnalysisPayload :=
  let v := validate_llm_json fields
  let n := v.1
  let overall := compute_overall n.stress_score n.anxiety_score n.depression_score
  let risk := risk_from_scores n.stress_score n.anxiety_score n.depression_score overall
  { stress_score := n.stress_score
    anxiety_score := n.anxiety_score
    depression_score := n.depression_score
    risk_level := risk
    alert_recommended := decide (risk = RiskLevel.HIGH ∨ risk = RiskLevel.CRITICAL)
    rationale_short := n.rationale_short
    ai_message := n.ai_message
    recommendations := n.recommendations
    raw_llm_json := raw
    analysis_status := if v.2 = [] then .OK else .REPAIRED }

/-- `analysis.services.analyze_text`.  An `Except.error` result models an
exception escaping to the caller: `.unboundLocal "raw"` when the provider
itself raises a `json.JSONDecodeError` (the handler's `raw[:500]` reads a
never-assigned local), `.nonDictTop` when the decoded JSON is not an object
(`validate_llm_json`, called outside the `try`, evaluates `k not in obj` /
`obj.get` on a non-dict). -/
def analyze_text (env : AnalyzeEnv) (user_text : String)
    (context : List (String × String)) : Except PyErr AnalysisPayload :=
  if pyStrip user_text = "" then .ok emptyInputPayload
  else
    let t := (pyStrip user_text).take 8000
    match env.provider t context with
    | .raisesOther m => .ok (providerErrorPayload m)
    | .raisesJsonDecode _ => .error (.unboundLocal "raw")
    | .ok raw =>
      match jsonParse raw with
      | some (.jobj fields) => .ok (successPayload raw fields)
      | some _ => .error .nonDictTop
      | none =>
        match env.repair raw with
        | .ok raw2 =>
          match jsonParse raw2 with
          | some (.jobj fields) => .ok (successPayload raw2 fields)
          | some _ => .error .nonDictTop
          | none => .ok (invalidFormatPayload raw2)
        | .error _ => .ok (invalidFormatPayload raw)

/-! ### `alerts.services` -/

/-- The fields of `accounts.models.Profile` the alert policy reads or
writes (`updated_at`/`created_at` are ORM-managed and omitted). -/
structure Profile where
  display_name : String
  consent_alerts_enabled : Bool
  consent_text_accepted_at : Option ℤ
  timezone : String
  last_alert_sent_at : Option ℤ
deriving DecidableEq, Repr

/-- `alerts.models.EmergencyContact` (the fields the policy reads). -/
structure EmergencyContact where
  name : String
  channel : ContactChannel
  destination : String
  enabled : Bool
deriving DecidableEq, Repr

/-- The fields of `analysis.models.AnalysisResult` that `maybe_send_alert`
reads. -/
structure AnalysisRow where
  risk_level : RiskLevel
  alert_recommended : Bool
deriving DecidableEq, Repr

/-- `alerts.models.AlertEvent` (the created audit row's fields). -/
structure AlertEvent where
  risk_level : RiskLevel
  channel : ContactChannel
  sent_to : List String
  status : AlertStatus
  provider_response : String
  sent_at : Option ℤ
deriving DecidableEq, Repr

/-- External state for one `maybe_send_alert` call: the clock and the
Django email backend's behaviour (`.ok n` = `msg.send()` returned `n`,
`.error e` = it raised with text `e`). -/
structure AlertEnv where
  now : ℤ
  emailResult : Except String ℕ
deriving Repr

/-- The result of one `maybe_send_alert` call: the created `AlertEvent`
row (if any), the profile as left in the database, and whether the email
transport was invoked. -/
structure SendOutcome where
  event : Option AlertEvent
  profile : Profile
  emailAttempted : Bool
deriving DecidableEq, Repr

/-- `alerts.services._rate_limited`: 1 per 24h, `CRITICAL` bypasses. -/
def _rate_limited (profile : Profile) (risk_level : RiskLevel) (now : ℤ) : Bool :=
  if risk_level = RiskLevel.CRITICAL then false
  else
    match profile.last_alert_sent_at with
    | none => false
    | some t => now - t < 24 * 3600

/-- `alerts.services._compose_email`. -/
def _compose_email (now : ℤ) (user_display : String) (risk_level : RiskLevel) :
    String × String :=
  ("Automated Wellness Alert (High Risk Detected)",
   "This is an automated notification from the Mental Health Analyzer.\n\n" ++
   "User: " ++ user_display ++ "\n" ++
   "Risk Level: " ++ risk_level.str ++ "\n" ++
   "Time: " ++ toString now ++ "\n\n" ++
   "Note: This is not a medical diagnosis. Please check in with the user if appropriate.\n")

/-- The queryset `EmergencyContact.objects.filter(user=user, enabled=True,
channel=ContactChannel.EMAIL).order_by("name")`: enabled EMAIL contacts
sorted (stably) by name. -/
def enabledEmailContacts (contacts : List EmergencyContact) :
    List EmergencyContact :=
  (contacts.filter (fun c => c.enabled ∧ c.channel = ContactChannel.EMAIL)).insertionSort
    (fun a b => a.name ≤ b.name)

/-- `alerts.services.maybe_send_alert`: policy gates in source order, then
the delivery attempt.  `contacts` is the user's full contact list;
`username` is `user.get_username()`. -/
def maybe_send_alert (env : AlertEnv) (username : String) (profile : Profile)
    (contacts : List EmergencyContact) (analysis : AnalysisRow) : SendOutcome :=
  if analysis.alert_recommended = false then ⟨none, profile, false⟩
  else
    let destinations := (enabledEmailContacts contacts).map (·.destination)
    if ¬profile.consent_alerts_enabled ∨ profile.consent_text_accepted_at.isNone then
      ⟨some ⟨analysis.risk_level, .EMAIL, [], .SKIPPED_NO_CONSENT,
            "Consent not enabled/accepted.", none⟩, profile, false⟩
    else if destinations = [] then
      ⟨some ⟨analysis.risk_level, .EMAIL, [], .SKIPPED_NO_CONTACTS,
            "No enabled email contacts.", none⟩, profile, false⟩
    else if _rate_limited profile analysis.risk_level env.now then
      ⟨some ⟨analysis.risk_level, .EMAIL, [], .SKIPPED_RATE_LIMIT,
            "Rate limited (24h).", none⟩, profile, false⟩
    else
      let display := if profile.display_name = "" then username else profile.display_name
      let _mail := _compose_email env.now display analysis.risk_level
      match env.emailResult with
      | .ok n =>
        ⟨some ⟨analysis.risk_level, .EMAIL, destinations, .SENT,
              "Email sent_count=" ++ toString n, some env.now⟩,
         { profile with last_alert_sent_at := some env.now }, true⟩
      | .error e =>
        ⟨some ⟨analysis.risk_level, .EMAIL, [], .FAILED, e, none⟩, profile, true⟩

/-! ## Theorems -/

/-- `compute_overall` written as floor-division plus a carry: the half-even
tie branch is dead because `10*n/3` is never exactly half way between two
tenths. -/
theorem compute_overall_eq (s a d : ℤ) :
    compute_overall s a d =
      10 * (s + a + d) / 3 + (if 10 * (s + a + d) % 3 ≤ 1 then 0 else 1) := by
  simp only [compute_overall]
  have h0 : 0 ≤ 10 * (s + a + d) % 3 := Int.emod_nonneg _ (by norm_num)
  have h3 : 10 * (s + a + d) % 3 < 3 := Int.emod_lt_of_pos _ (by norm_num)
  rcases (by omega : 10 * (s + a + d) % 3 = 0 ∨ 10 * (s + a + d) % 3 = 1 ∨
      10 * (s + a + d) % 3 = 2) with h | h | h <;> rw [h] <;> norm_num

/-- Rounding `m/3` to the nearest integer equals floor division plus a carry
on the remainder. -/
theorem round_thirds (m : ℤ) :
    m / 3 + (if m % 3 ≤ 1 then 0 else 1) = round ((m : ℚ) / 3) := by
  have hm : (3 : ℤ) * (m / 3) + m % 3 = m := Int.ediv_add_emod m 3
  have h0 : 0 ≤ m % 3 := Int.emod_nonneg _ (by norm_num)
  have h3 : m % 3 < 3 := Int.emod_lt_of_pos _ (by norm_num)
  have hq : (m : ℚ) / 3 = ((m / 3 : ℤ) : ℚ) + ((m % 3 : ℤ) : ℚ) / 3 := by
    have hc : (m : ℚ) = 3 * ((m / 3 : ℤ) : ℚ) + ((m % 3 : ℤ) : ℚ) := by
      exact_mod_cast hm.symm
    rw [hc]; ring
  rw [hq]
  rcases (by omega : m % 3 = 0 ∨ m % 3 = 1 ∨ m % 3 = 2) with h | h | h <;>
    rw [h, round_int_add] <;> norm_num [round_eq]

/-- C9: for all integers `s, a, d` in `[0,10]`, `compute_overall s a d`
(the Decimal mean in tenths) equals `round(10*(s+a+d)/3)` — i.e. the mean
`(s+a+d)/3` rounded to one decimal place — and lies in `[0.0, 10.0]`
(`0 ≤ tenths ≤ 100`).  The overall score is a function of the three
component scores alone. -/
theorem compute_overall_rounds_mean (s a d : ℤ)
    (hs0 : 0 ≤ s) (hs1 : s ≤ 10) (ha0 : 0 ≤ a) (ha1 : a ≤ 10)
    (hd0 : 0 ≤ d) (hd1 : d ≤ 10) :
    compute_overall s a d = round ((10 * (s + a + d) : ℚ) / 3) ∧
    0 ≤ compute_overall s a d ∧ compute_overall s a d ≤ 100 := by
  refine ⟨?_, ?_, ?_⟩
  · rw [compute_overall_eq, round_thirds]; norm_num
  · rw [compute_overall_eq]
    have hm : (3 : ℤ) * (10 * (s + a + d) / 3) + 10 * (s + a + d) % 3 =
        10 * (s + a + d) := Int.ediv_add_emod _ 3
    have h0 : 0 ≤ 10 * (s + a + d) % 3 := Int.emod_nonneg _ (by norm_num)
    have h3 : 10 * (s + a + d) % 3 < 3 := Int.emod_lt_of_pos _ (by norm_num)
    split <;> omega
  · rw [compute_overall_eq]
    have hm : (3 : ℤ) * (10 * (s + a + d) / 3) + 10 * (s + a + d) % 3 =
        10 * (s + a + d) := Int.ediv_add_emod _ 3
    have h0 : 0 ≤ 10 * (s + a + d) % 3 := Int.emod_nonneg _ (by norm_num)
    have h3 : 10 * (s + a + d) % 3 < 3 := Int.emod_lt_of_pos _ (by norm_num)
    split <;> omega

/-- Witness for `compute_overall_rounds_mean` at `s = 8, a = 0, d = 0`. -/
theorem compute_overall_rounds_mean_inst :
    compute_overall 8 0 0 = round ((10 * (8 + 0 + 0) : ℚ) / 3) ∧
    0 ≤ compute_overall 8 0 0 ∧ compute_overall 8 0 0 ≤ 100 :=
  compute_overall_rounds_mean 8 0 0 (by norm_num) (by norm_num) (by norm_num)
    (by norm_num) (by norm_num) (by norm_num)

/-- C1: for scores in `[0,10]` and any `overall`, `risk_from_scores` is
exactly the spec's four-step precedence cascade (`riskTierSpec`), and in
particular `classify(0,0,9)` is `CRITICAL` (depression override, overall
3.0) and `classify(8,0,0)` is `HIGH` (stress override, overall 2.7), not
`MEDIUM`/`LOW`. -/
theorem risk_from_scores_precedence (s a d overall : ℤ)
    (hs0 : 0 ≤ s) (hs1 : s ≤ 10) (ha0 : 0 ≤ a) (ha1 : a ≤ 10)
    (hd0 : 0 ≤ d) (hd1 : d ≤ 10) :
    risk_from_scores s a d overall = riskTierSpec s a d overall ∧
    risk_from_scores 0 0 9 (compute_overall 0 0 9) = RiskLevel.CRITICAL ∧
    compute_overall 0 0 9 = 30 ∧
    risk_from_scores 8 0 0 (compute_overall 8 0 0) = RiskLevel.HIGH ∧
    compute_overall 8 0 0 = 27 :=
  ⟨rfl, by decide, by decide, by decide, by decide⟩

/-- Witness for `risk_from_scores_precedence` at `(9, 0, 0, 30)`. -/
theorem risk_from_scores_precedence_inst :
    risk_from_scores 9 0 0 30 = riskTierSpec 9 0 0 30 ∧
    risk_from_scores 0 0 9 (compute_overall 0 0 9) = RiskLevel.CRITICAL ∧
    compute_overall 0 0 9 = 30 ∧
    risk_from_scores 8 0 0 (compute_overall 8 0 0) = RiskLevel.HIGH ∧
    compute_overall 8 0 0 = 27 :=
  risk_from_scores_precedence 9 0 0 30 (by norm_num) (by norm_num) (by norm_num)
    (by norm_num) (by norm_num) (by norm_num)

/-- `_clamp_int` with the call-site bounds stays in `[0, 10]`. -/
theorem clamp_int_mem (v : JVal) :
    0 ≤ _clamp_int v 0 10 ∧ _clamp_int v 0 10 ≤ 10 := by
  unfold _clamp_int
  exact ⟨le_max_left _ _, max_le (by norm_num) (min_le_left _ _)⟩

/-- C5: `validate_llm_json` is total and bounding — on every input
dictionary it produces a normalized record whose three scores are integers
in `[0, 10]`; a value whose `int(.)` coercion raises is substituted with `0`
(the `lo` bound) and a coercible value is clamped to `[0, 10]`; the record
is produced regardless of what the error list contains. -/
theorem validate_llm_json_total_bounded (obj : List (String × JVal)) :
    (0 ≤ (validate_llm_json obj).1.stress_score ∧
      (validate_llm_json obj).1.stress_score ≤ 10) ∧
    (0 ≤ (validate_llm_json obj).1.anxiety_score ∧
      (validate_llm_json obj).1.anxiety_score ≤ 10) ∧
    (0 ≤ (validate_llm_json obj).1.depression_score ∧
      (validate_llm_json obj).1.depression_score ≤ 10) ∧
    (∀ v : JVal, pyToInt v = none → _clamp_int v 0 10 = 0) ∧
    (∀ v : JVal, ∀ n : ℤ, pyToInt v = some n →
      _clamp_int v 0 10 = max 0 (min 10 n)) := by
  refine ⟨?_, ?_, ?_, ?_, ?_⟩
  · exact clamp_int_mem _
  · exact clamp_int_mem _
  · exact clamp_int_mem _
  · intro v hv; simp [_clamp_int, hv]
  · intro v n hv; simp [_clamp_int, hv]

/-- Evaluation of `maybe_send_alert` when every gate passes and the rate
limit does not fire: the delivery attempt happens and the outcome follows
the transport result. -/
theorem maybe_send_alert_delivery (env : AlertEnv) (username : String)
    (profile : Profile) (contacts : List EmergencyContact) (analysis : AnalysisRow)
    (hrec : analysis.alert_recommended = true)
    (hcons : profile.consent_alerts_enabled = true)
    (hacc : profile.consent_text_accepted_at ≠ none)
    (hdest : (enabledEmailContacts contacts).map (·.destination) ≠ [])
    (hrl : _rate_limited profile analysis.risk_level env.now = false) :
    maybe_send_alert env username profile contacts analysis =
      match env.emailResult with
      | .ok n =>
        ⟨some ⟨analysis.risk_level, .EMAIL,
              (enabledEmailContacts contacts).map (·.destination), .SENT,
              "Email sent_count=" ++ toString n, some env.now⟩,
         { profile with last_alert_sent_at := some env.now }, true⟩
      | .error e =>
        ⟨some ⟨analysis.risk_level, .EMAIL, [], .FAILED, e, none⟩, profile, true⟩ := by
  rcases hopt : profile.consent_text_accepted_at with _ | t0
  · exact absurd hopt hacc
  · simp only [maybe_send_alert, hrec, hcons, hopt, hrl]
    simp [hdest]

/-- Evaluation of `maybe_send_alert` when every gate passes but the rate
limit fires: the skip decision is recorded and no transport is attempted. -/
theorem maybe_send_alert_ratelimited (env : AlertEnv) (username : String)
    (profile : Profile) (contacts : List EmergencyContact) (analysis : AnalysisRow)
    (hrec : analysis.alert_recommended = true)
    (hcons : profile.consent_alerts_enabled = true)
    (hacc : profile.consent_text_accepted_at ≠ none)
    (hdest : (enabledEmailContacts contacts).map (·.destination) ≠ [])
    (hrl : _rate_limited profile analysis.risk_level env.now = true) :
    maybe_send_alert env username profile contacts analysis =
      ⟨some ⟨analysis.risk_level, .EMAIL, [], .SKIPPED_RATE_LIMIT,
            "Rate limited (24h).", none⟩, profile, false⟩ := by
  rcases hopt : profile.consent_text_accepted_at with _ | t0
  · exact absurd hopt hacc
  · simp only [maybe_send_alert, hrec, hcons, hopt, hrl]
    simp [hdest]

/-- C3: with the earlier policy gates passed (alert recommended, consent
enabled and accepted, at least one enabled EMAIL contact), the 24-hour rate
limit of `maybe_send_alert` applies only to tiers other than CRITICAL.  For
a CRITICAL outcome the transport is attempted and the decision is never
`SKIPPED_RATE_LIMIT`, regardless of when the last successful send happened;
for a HIGH outcome with a successful send less than `24*3600` seconds ago
the decision is `SKIPPED_RATE_LIMIT` and the transport is not invoked. -/
theorem maybe_send_alert_rate_limit_scope (env : AlertEnv) (username : String)
    (profile : Profile) (contacts : List EmergencyContact) (analysis : AnalysisRow)
    (hrec : analysis.alert_recommended = true)
    (hcons : profile.consent_alerts_enabled = true)
    (hacc : profile.consent_text_accepted_at ≠ none)
    (hdest : (enabledEmailContacts contacts).map (·.destination) ≠ []) :
    (analysis.risk_level = RiskLevel.CRITICAL →
      (maybe_send_alert env username profile contacts analysis).emailAttempted = true ∧
      ∀ ev, (maybe_send_alert env username profile contacts analysis).event = some ev →
        ev.status ≠ AlertStatus.SKIPPED_RATE_LIMIT) ∧
    (analysis.risk_level = RiskLevel.HIGH →
      ∀ t, profile.last_alert_sent_at = some t → env.now - t < 24 * 3600 →
        (maybe_send_alert env username profile contacts analysis).event =
          some ⟨analysis.risk_level, .EMAIL, [], .SKIPPED_RATE_LIMIT,
                "Rate limited (24h).", none⟩ ∧
        (maybe_send_alert env username profile contacts analysis).emailAttempted = false) := by
  constructor
  · intro hcrit
    have hrl : _rate_limited profile analysis.risk_level env.now = false := by
      simp [_rate_limited, hcrit]
    rw [maybe_send_alert_delivery env username profile contacts analysis
      hrec hcons hacc hdest hrl]
    rcases env.emailResult with e | n
    · exact ⟨rfl, by rintro ev ⟨rfl⟩; simp⟩
    · exact ⟨rfl, by rintro ev ⟨rfl⟩; simp⟩
  · intro hhigh t ht hlt
    have hrl : _rate_limited profile analysis.risk_level env.now = true := by
      simp [_rate_limited, hhigh, ht]
      omega
    rw [maybe_send_alert_ratelimited env username profile contacts analysis
      hrec hcons hacc hdest hrl]
    exact ⟨rfl, rfl⟩

/-- Witness for `maybe_send_alert_rate_limit_scope`: a consented profile
with a successful send 3600 s before the clock, one enabled EMAIL contact
and a CRITICAL outcome still attempts the transport. -/
theorem maybe_send_alert_rate_limit_scope_inst :
    (maybe_send_alert ⟨7200, Except.ok 1⟩ "u"
      ⟨"Alex", true, some 0, "tz", some 3600⟩
      [⟨"a", ContactChannel.EMAIL, "a@x.com", true⟩]
      ⟨RiskLevel.CRITICAL, true⟩).emailAttempted = true := by
  have h := maybe_send_alert_rate_limit_scope ⟨7200, Except.ok 1⟩ "u"
    ⟨"Alex", true, some 0, "tz", some 3600⟩
    [⟨"a", ContactChannel.EMAIL, "a@x.com", true⟩]
    ⟨RiskLevel.CRITICAL, true⟩ rfl rfl (by simp) (by decide)
  exact (h.1 rfl).1

/-- C7: in the delivery branch of `maybe_send_alert` (all gates passed, not
rate-limited): on transport success the decision is `SENT` with recipients
equal to all enabled EMAIL destinations, `sent_at` the send time, and the
profile is written back with `last_alert_sent_at` updated to that time and
every other field unchanged (the record update touches only that field); on
transport failure the decision is `FAILED` with empty recipients and the
error text as detail, and the profile — in particular
`last_alert_sent_at` — is left exactly as it was. -/
theorem maybe_send_alert_delivery_frame (env : AlertEnv) (username : String)
    (profile : Profile) (contacts : List EmergencyContact) (analysis : AnalysisRow)
    (hrec : analysis.alert_recommended = true)
    (hcons : profile.consent_alerts_enabled = true)
    (hacc : profile.consent_text_accepted_at ≠ none)
    (hdest : (enabledEmailContacts contacts).map (·.destination) ≠ [])
    (hrl : _rate_limited profile analysis.risk_level env.now = false) :
    (∀ n, env.emailResult = Except.ok n →
      maybe_send_alert env username profile contacts analysis =
        ⟨some ⟨analysis.risk_level, .EMAIL,
              (enabledEmailContacts contacts).map (·.destination), .SENT,
              "Email sent_count=" ++ toString n, some env.now⟩,
         { profile with last_alert_sent_at := some env.now }, true⟩) ∧
    (∀ e, env.emailResult = Except.error e →
      maybe_send_alert env username profile contacts analysis =
        ⟨some ⟨analysis.risk_level, .EMAIL, [], .FAILED, e, none⟩,
         profile, true⟩) := by
  rw [maybe_send_alert_delivery env username profile contacts analysis
    hrec hcons hacc hdest hrl]
  constructor
  · intro n hn; rw [hn]
  · intro e he; rw [he]

/-- Witness for `maybe_send_alert_delivery_frame`: concrete success case. -/
theorem maybe_send_alert_delivery_frame_inst :
    maybe_send_alert ⟨1000, Except.ok 2⟩ "u"
      ⟨"Alex", true, some 0, "tz", none⟩
      [⟨"a", ContactChannel.EMAIL, "a@x.com", true⟩]
      ⟨RiskLevel.HIGH, true⟩ =
      ⟨some ⟨RiskLevel.HIGH, ContactChannel.EMAIL, ["a@x.com"], AlertStatus.SENT,
            "Email sent_count=2", some 1000⟩,
       ⟨"Alex", true, some 0, "tz", some 1000⟩, true⟩ := by
  have h := maybe_send_alert_delivery_frame ⟨1000, Except.ok 2⟩ "u"
    ⟨"Alex", true, some 0, "tz", none⟩
    [⟨"a", ContactChannel.EMAIL, "a@x.com", true⟩]
    ⟨RiskLevel.HIGH, true⟩ rfl rfl (by simp) (by decide) rfl
  exact h.1 2 rfl

/-- Membership in the enabled-EMAIL queryset. -/
theorem mem_enabledEmailContacts (contacts : List EmergencyContact)
    (c : EmergencyContact) :
    c ∈ enabledEmailContacts contacts ↔
      c ∈ contacts ∧ c.enabled = true ∧ c.channel = ContactChannel.EMAIL := by
  unfold enabledEmailContacts
  rw [(List.perm_insertionSort _ _).mem_iff, List.mem_filter]
  simp

/-- Every event `maybe_send_alert` records either is the `SENT` event with
the enabled-EMAIL destinations, or carries no recipients at all. -/
theorem maybe_send_alert_sent_to_cases (env : AlertEnv) (username : String)
    (profile : Profile) (contacts : List EmergencyContact) (analysis : AnalysisRow) :
    ∀ ev, (maybe_send_alert env username profile contacts analysis).event = some ev →
      (ev.status ≠ AlertStatus.SENT ∧ ev.sent_to = []) ∨
      (ev.status = AlertStatus.SENT ∧
        ev.sent_to = (enabledEmailContacts contacts).map (·.destination)) := by
  intro ev hev
  simp only [maybe_send_alert] at hev
  rcases henv : env.emailResult with e | n <;> rw [henv] at hev <;>
    split_ifs at hev with h1 h2 h3 h4 <;> simp at hev <;>
    (try subst hev) <;> simp

/-- C10: `maybe_send_alert` only ever targets enabled EMAIL contacts — a
`SENT` decision's recipients are exactly the destinations of the user's
enabled EMAIL contacts (in name order), every address in any recorded
decision belongs to an enabled EMAIL contact (so SMS contacts are never
notified by any branch), and a user whose enabled contacts are all SMS gets
a `SKIPPED_NO_CONTACTS` decision once the alert-recommended and consent
gates pass. -/
theorem maybe_send_alert_email_channel_only (env : AlertEnv) (username : String)
    (profile : Profile) (contacts : List EmergencyContact) (analysis : AnalysisRow) :
    (∀ ev, (maybe_send_alert env username profile contacts analysis).event = some ev →
      ev.status = AlertStatus.SENT →
      ev.sent_to = (enabledEmailContacts contacts).map (·.destination)) ∧
    (∀ ev addr, (maybe_send_alert env username profile contacts analysis).event = some ev →
      addr ∈ ev.sent_to →
      ∃ c, c ∈ contacts ∧ c.enabled = true ∧ c.channel = ContactChannel.EMAIL ∧
        c.destination = addr) ∧
    (analysis.alert_recommended = true →
      profile.consent_alerts_enabled = true →
      profile.consent_text_accepted_at ≠ none →
      (∀ c, c ∈ contacts → c.enabled = true → c.channel = ContactChannel.SMS) →
      (maybe_send_alert env username profile contacts analysis).event =
        some ⟨analysis.risk_level, .EMAIL, [], .SKIPPED_NO_CONTACTS,
              "No enabled email contacts.", none⟩) := by
  refine ⟨?_, ?_, ?_⟩
  · intro ev hev hsent
    rcases maybe_send_alert_sent_to_cases env username profile contacts analysis ev hev
      with ⟨hne, _⟩ | ⟨_, hto⟩
    · exact absurd hsent hne
    · exact hto
  · intro ev addr hev hmem
    rcases maybe_send_alert_sent_to_cases env username profile contacts analysis ev hev
      with ⟨_, hto⟩ | ⟨_, hto⟩
    · rw [hto] at hmem; simp at hmem
    · rw [hto] at hmem
      rcases List.mem_map.mp hmem with ⟨c, hc, hdst⟩
      rcases (mem_enabledEmailContacts contacts c).mp hc with ⟨hin, hen, hch⟩
      exact ⟨c, hin, hen, hch, hdst⟩
  · intro hrec hcons hacc hsms
    have hfil : contacts.filter
        (fun c => decide (c.enabled = true ∧ c.channel = ContactChannel.EMAIL)) = [] := by
      rw [List.filter_eq_nil_iff]
      intro c hc
      simp only [decide_eq_true_eq, not_and]
      intro hen
      rw [hsms c hc hen]
      simp
    have hdest : (enabledEmailContacts contacts).map (·.destination) = [] := by
      unfold enabledEmailContacts
      rw [show (fun c : EmergencyContact =>
        decide (c.enabled = true ∧ c.channel = ContactChannel.EMAIL)) =
        (fun c : EmergencyContact =>
          decide (c.enabled ∧ c.channel = ContactChannel.EMAIL)) from rfl] at hfil
      rw [hfil]
      simp [List.insertionSort]
    rcases hopt : profile.consent_text_accepted_at with _ | t0
    · exact absurd hopt hacc
    · simp only [maybe_send_alert, hrec, hcons, hopt, hdest]
      simp

/-- C6: for empty or whitespace-only `user_text` (Python
`not user_text or not user_text.strip()`, i.e. `strip` of it is empty),
`analyze_text` returns — for every environment, so without consulting the
provider — the fixed `FAILED` payload with all three scores `0`, tier
`LOW`, `alert_recommended = false` and a non-empty `ai_message`. -/
theorem analyze_text_empty_input (env : AnalyzeEnv) (text : String)
    (context : List (String × String)) (h : pyStrip text = "") :
    analyze_text env text context = Except.ok emptyInputPayload ∧
    emptyInputPayload.stress_score = 0 ∧
    emptyInputPayload.anxiety_score = 0 ∧
    emptyInputPayload.depression_score = 0 ∧
    emptyInputPayload.risk_level = RiskLevel.LOW ∧
    emptyInputPayload.alert_recommended = false ∧
    emptyInputPayload.analysis_status = AnalysisStatus.FAILED ∧
    emptyInputPayload.ai_message ≠ "" := by
  refine ⟨?_, rfl, rfl, rfl, rfl, rfl, rfl, by decide⟩
  simp [analyze_text, h]

/-- Witness for `analyze_text_empty_input` at `text = "  \t "`, a concrete
environment whose provider and repairer are fixed functions. -/
theorem analyze_text_empty_input_inst :
    analyze_text ⟨fun _ _ => ProviderResult.ok "", fun s => Except.ok s⟩
      "  \t " [] = Except.ok emptyInputPayload ∧
    emptyInputPayload.stress_score = 0 ∧
    emptyInputPayload.anxiety_score = 0 ∧
    emptyInputPayload.depression_score = 0 ∧
    emptyInputPayload.risk_level = RiskLevel.LOW ∧
    emptyInputPayload.alert_recommended = false ∧
    emptyInputPayload.analysis_status = AnalysisStatus.FAILED ∧
    emptyInputPayload.ai_message ≠ "" :=
  analyze_text_empty_input ⟨fun _ _ => ProviderResult.ok "", fun s => Except.ok s⟩
    "  \t " [] (by decide)

/-- C2 is wrong about the code: `analyze_text` is *not* total.  When the
provider call itself raises a `json.JSONDecodeError` (as
`OpenRouterProvider.analyze` does through `resp.json()` on a 200 response
with a non-JSON body — `requests.exceptions.JSONDecodeError` subclasses
`json.JSONDecodeError`), the `except json.JSONDecodeError` handler
evaluates `raw[:500]` with the local `raw` never assigned, and the
function raises `UnboundLocalError` to its caller instead of returning a
`FAILED` outcome (first conjunct).  The other failure classes are
converted as the claim says: any other provider exception yields the fixed
provider-error `FAILED` payload (second conjunct), and a reply that fails
JSON decoding even after repair yields the invalid-format `FAILED` payload
(third conjunct). -/
theorem analyze_text_provider_jsondecode_escapes :
    analyze_text
      ⟨fun _ _ => ProviderResult.raisesJsonDecode "Expecting value: line 1 column 1",
       fun s => Except.ok s⟩ "hello" [] =
      Except.error (PyErr.unboundLocal "raw") ∧
    (∀ env : AnalyzeEnv, ∀ text ctx m,
      pyStrip text ≠ "" →
      env.provider ((pyStrip text).take 8000) ctx = ProviderResult.raisesOther m →
      analyze_text env text ctx = Except.ok (providerErrorPayload m) ∧
      (providerErrorPayload m).analysis_status = AnalysisStatus.FAILED) ∧
    (∀ env : AnalyzeEnv, ∀ text ctx raw err,
      pyStrip text ≠ "" →
      env.provider ((pyStrip text).take 8000) ctx = ProviderResult.ok raw →
      jsonParse raw = none →
      env.repair raw = Except.error err →
      analyze_text env text ctx = Except.ok (invalidFormatPayload raw) ∧
      (invalidFormatPayload raw).analysis_status = AnalysisStatus.FAILED) := by
  refine ⟨rfl, ?_, ?_⟩
  · intro env text ctx m hne hm
    refine ⟨?_, rfl⟩
    simp [analyze_text, hne, hm]
  · intro env text ctx raw err hne hp hj hr
    refine ⟨?_, rfl⟩
    simp [analyze_text, hne, hp, hj, hr]

/-- Dropping a prefix, then a suffix, leaves a list whose head still fails
the predicate, so a further front-drop is the identity. -/
theorem dropWhile_rdropWhile_dropWhile {α : Type} (p : α → Bool) (l : List α) :
    List.dropWhile p (List.rdropWhile p (List.dropWhile p l)) =
      List.rdropWhile p (List.dropWhile p l) := by
  rcases hr : List.rdropWhile p (List.dropWhile p l) with _ | ⟨c, cs⟩
  · simp
  · obtain ⟨t, ht⟩ := List.rdropWhile_prefix p (List.dropWhile p l)
    rw [hr] at ht
    have hdl : List.dropWhile p l = c :: (cs ++ t) := by rw [← ht]; rfl
    have hne : List.dropWhile p l ≠ [] := by rw [hdl]; simp
    have hc := List.head_dropWhile_not p l hne
    have h1 : (List.dropWhile p l).head? = some c := by rw [hdl]; rfl
    rw [List.head?_eq_head hne] at h1
    rw [Option.some_inj.mp h1] at hc
    rw [List.dropWhile_cons, hc]
    simp

/-- Python `strip` on character lists is idempotent. -/
theorem stripChars_idem (l : List Char) : stripChars (stripChars l) = stripChars l := by
  unfold stripChars
  rw [dropWhile_rdropWhile_dropWhile, List.rdropWhile_idempotent]

/-- Python `str.strip()` is idempotent. -/
theorem pyStrip_idem (s : String) : pyStrip (pyStrip s) = pyStrip s := by
  unfold pyStrip
  exact congrArg String.mk (stripChars_idem s.data)

/-- `_clamp_int` on a Python int already inside `[0, 10]` is the
identity. -/
theorem clamp_int_intCast (z : ℤ) (h0 : 0 ≤ z) (h1 : z ≤ 10) :
    _clamp_int (.jnum (z : ℚ)) 0 10 = z := by
  unfold _clamp_int pyToInt
  simp [Rat.num_intCast, Rat.den_intCast, Int.tdiv_one]
  omega

/-- Structural invariants of every normalized record `validate_llm_json`
produces: the two text fields are already stripped, the recommendation list
has at most 6 entries, and the three scores lie in `[0, 10]`. -/
theorem validate_llm_json_invariants (obj : List (String × JVal)) :
    pyStrip (validate_llm_json obj).1.rationale_short =
      (validate_llm_json obj).1.rationale_short ∧
    pyStrip (validate_llm_json obj).1.ai_message =
      (validate_llm_json obj).1.ai_message ∧
    (validate_llm_json obj).1.recommendations.length ≤ 6 ∧
    (0 ≤ (validate_llm_json obj).1.stress_score ∧
      (validate_llm_json obj).1.stress_score ≤ 10) ∧
    (0 ≤ (validate_llm_json obj).1.anxiety_score ∧
      (validate_llm_json obj).1.anxiety_score ≤ 10) ∧
    (0 ≤ (validate_llm_json obj).1.depression_score ∧
      (validate_llm_json obj).1.depression_score ≤ 10) := by
  refine ⟨?_, ?_, ?_, clamp_int_mem _, clamp_int_mem _, clamp_int_mem _⟩
  · simp only [validate_llm_json]
    exact pyStrip_idem _
  · simp only [validate_llm_json]
    exact pyStrip_idem _
  · simp only [validate_llm_json]
    rcases (dget obj "recommendations").getD (JVal.jarr []) <;>
      simp [List.length_take]

/-- C8 (amended): re-normalizing a record that is itself the output of
`validate_llm_json` reproduces the very same record — same three scores,
same (already-trimmed) rationale and ai_message, same recommendations — and
the second error list is empty **except** that the "recommendations must
have at least 3 items" error is reported again whenever the normalized
record has fewer than three recommendations (the count check fires on every
pass; the error list is not empty in that case). -/
theorem validate_llm_json_renormalize (obj : List (String × JVal)) :
    (validate_llm_json (normalizedToObj (validate_llm_json obj).1)).1 =
      (validate_llm_json obj).1 ∧
    (validate_llm_json (normalizedToObj (validate_llm_json obj).1)).2 =
      (if (validate_llm_json obj).1.recommendations.length < 3 then
        ["recommendations must have at least 3 items"]
      else []) := by
  obtain ⟨hr, hai, hlen, hs, ha, hd⟩ := validate_llm_json_invariants obj
  set n := (validate_llm_json obj).1 with hn
  have d1 : dget (normalizedToObj n) "stress_score" =
      some (.jnum (n.stress_score : ℚ)) := rfl
  have d2 : dget (normalizedToObj n) "anxiety_score" =
      some (.jnum (n.anxiety_score : ℚ)) := rfl
  have d3 : dget (normalizedToObj n) "depression_score" =
      some (.jnum (n.depression_score : ℚ)) := rfl
  have d4 : dget (normalizedToObj n) "rationale_short" =
      some (.jstr n.rationale_short) := rfl
  have d5 : dget (normalizedToObj n) "ai_message" =
      some (.jstr n.ai_message) := rfl
  have d6 : dget (normalizedToObj n) "recommendations" =
      some (.jarr (n.recommendations.map .jstr)) := rfl
  have hmap : (n.recommendations.map JVal.jstr).map pyStr = n.recommendations := by
    rw [List.map_map]
    rw [show pyStr ∘ JVal.jstr = id from funext fun s => rfl]
    exact List.map_id _
  have htake : n.recommendations.take 6 = n.recommendations :=
    List.take_of_length_le hlen
  constructor
  · simp only [validate_llm_json, requiredKeys, d1, d2, d3, d4, d5, d6,
      Option.getD_some, Option.isNone_some, hmap, htake,
      clamp_int_intCast n.stress_score hs.1 hs.2,
      clamp_int_intCast n.anxiety_score ha.1 ha.2,
      clamp_int_intCast n.depression_score hd.1 hd.2, hr, hai]
  · simp only [validate_llm_json, requiredKeys, d1, d2, d3, d4, d5, d6,
      Option.getD_some, Option.isNone_some, hmap, htake]
    simp [d1, d2, d3, d4, d5, d6]

/-- C8 as frozen is false: normalizing the normalized output of the empty
dictionary yields the "recommendations must have at least 3 items" error
again — a nonempty error list, not zero errors. -/
theorem validate_llm_json_renormalize_cex :
    (validate_llm_json (normalizedToObj (validate_llm_json []).1)).2 =
      ["recommendations must have at least 3 items"] ∧
    (validate_llm_json (normalizedToObj (validate_llm_json []).1)).2 ≠ [] := by
  constructor
  · rfl
  · intro h
    have e : (validate_llm_json (normalizedToObj (validate_llm_json []).1)).2 =
        ["recommendations must have at least 3 items"] := rfl
    rw [e] at h
    simp at h

/-- C4 (amended): `_extract_json_from_response` never raises and always
returns a string, but its result is *not* always syntactically-valid JSON
or the original trimmed text: every result is (i) valid JSON, or (ii) the
cleaned (fence-stripped, trimmed) input, or (iii) — in the complete-object
branch when the brace-to-brace substring does not parse — that raw
substring itself (returned when the repair call raises) or the repair
library's output returned *without validation*.  The claim's
"returns the repaired text only if that repaired text itself parses,
otherwise falls through" describes only the truncated-reply branch. -/
theorem extract_json_result_forms (repair : String → Except String String)
    (text : String) :
    (jsonParse (_extract_json_from_response repair text)).isSome = true ∨
    _extract_json_from_response repair text = String.mk (cleanedText text) ∨
    (∃ s e, firstBraceIdx (cleanedText text) = some s ∧
      lastBraceIdx (cleanedText text) = some e ∧ s < e ∧
      jsonParse ⟨((cleanedText text).drop s).take (e + 1 - s)⟩ = none ∧
      (_extract_json_from_response repair text =
          ⟨((cleanedText text).drop s).take (e + 1 - s)⟩ ∨
        repair ⟨((cleanedText text).drop s).take (e + 1 - s)⟩ =
          Except.ok (_extract_json_from_response repair text))) := by
  rcases hf : firstBraceIdx (cleanedText text) with _ | s
  · right; left
    simp [_extract_json_from_response, hf]
  · rcases he : lastBraceIdx (cleanedText text) with _ | e
    · simp only [_extract_json_from_response, hf, he, tryTruncated]
      rcases hrep : repair ⟨(cleanedText text).drop s⟩ with msg | r
      · right; left; rfl
      · by_cases hjp : (jsonParse r).isSome
        · left; simp [hjp]
        · right; left; simp [hjp]
    · by_cases hlt : s < e
      · simp only [_extract_json_from_response, hf, he, if_pos hlt]
        by_cases hjs :
            (jsonParse ⟨((cleanedText text).drop s).take (e + 1 - s)⟩).isSome
        · left; simp [hjs]
        · have hnone : jsonParse ⟨((cleanedText text).drop s).take (e + 1 - s)⟩ = none :=
            Option.not_isSome_iff_eq_none.mp hjs
          rcases hrep : repair ⟨((cleanedText text).drop s).take (e + 1 - s)⟩ with msg | r
          · right; right
            exact ⟨s, e, rfl, rfl, hlt, hnone, Or.inl (by simp [hjs, hrep])⟩
          · right; right
            exact ⟨s, e, rfl, rfl, hlt, hnone, Or.inr (by simp [hjs, hrep])⟩
      · simp only [_extract_json_from_response, hf, he, if_neg hlt, tryTruncated]
        rcases hrep : repair ⟨(cleanedText text).drop s⟩ with msg | r
        · right; left; rfl
        · by_cases hjp : (jsonParse r).isSome
          · left; simp [hjp]
          · right; left; simp [hjp]

/-- C4 as frozen is false at a concrete input: with a repair function that
returns its argument unrepaired (a possible best-effort behaviour of the
external `json_repair` library), the input `"abc \x7bxyz\x7d def"` has a
brace-to-brace substring `"\x7bxyz\x7d"` that does not parse, yet the
function returns that repaired-but-invalid text instead of falling through
to the original text: the result is neither valid JSON nor the (cleaned or
raw) input text. -/
theorem extract_json_parse_or_passthrough_cex :
    _extract_json_from_response (fun s => Except.ok s) "abc \x7bxyz\x7d def" =
      "\x7bxyz\x7d" ∧
    (jsonParse "\x7bxyz\x7d").isSome = false ∧
    "\x7bxyz\x7d" ≠ "abc \x7bxyz\x7d def" ∧
    String.mk (cleanedText "abc \x7bxyz\x7d def") = "abc \x7bxyz\x7d def" := by
  refine ⟨rfl, rfl, by decide, rfl⟩
